import Mathlib

/-!
Verification of the AI chat-completion gateway in `src/convex/lib/ai.ts`
(final, most feature-complete version of the module): provider dispatch,
single-turn callers for the Claude and OpenAI-chat dialects, the
Responses-API caller, and the moonshot web-search tool-call loop.

Modelling conventions:
* The network is an oracle. A single-shot caller receives the one HTTP
  exchange it will perform; the tool-call loop receives `chat : Nat → HttpResult`
  where `chat i` is the response to the i-th POST it issues.
* Every caller returns `(Except AIError AIResponse) × Nat`; the second
  component counts the HTTP requests actually issued.
* TypeScript `undefined`/`null` optionality is `Option`; `x ?? y` is `Option.getD`;
  `a?.b` is `Option.bind`.  JavaScript truthiness of an optional array field
  (`choice.message.tool_calls`) is `Option.isSome`: an *empty* array is truthy.
* `throw new Error ...` is `Except.error` with a constructor per distinct
  error site of the module.
-/

set_option linter.unusedVariables false

namespace NerdbotAI

/-- `ConversationMessage` (ai.ts): role is the runtime string "user" or "assistant". -/
structure ConversationMessage where
  role : String
  content : String
  deriving DecidableEq

/-- `AIResponse` (ai.ts): the canonical result.  `webSearchQueries` is spread into the
object only when non-empty, hence `Option`. -/
structure AIResponse where
  text : String
  inputTokens : Option Nat
  outputTokens : Option Nat
  webSearchQueries : Option (List String)
  deriving DecidableEq

/-- One error constructor per distinct `throw new Error(...)` site of the module. -/
inductive AIError where
  | providerHttp (provider : String) (status : Nat) (body : String)
  | noEndpoint (provider : String)
  | noResponsesEndpoint (provider : String)
  | noChoices
  | maxIterations
  | unknownProvider (provider : String)
  deriving DecidableEq

/-- `ClaudeAPIResponse.content` element. -/
structure ClaudeContentBlock where
  text : String
  deriving DecidableEq

/-- Claude usage object: `input_tokens` / `output_tokens`, each optional. -/
structure ClaudeUsage where
  input_tokens : Option Nat
  output_tokens : Option Nat
  deriving DecidableEq

/-- `ClaudeAPIResponse` (ai.ts). -/
structure ClaudeAPIResponse where
  content : List ClaudeContentBlock
  usage : Option ClaudeUsage
  deriving DecidableEq

/-- Outcome of the one HTTP POST `callClaude` performs: a non-ok status with body
text, or the parsed JSON of an ok response. -/
inductive ClaudeHttp where
  | failure (status : Nat) (body : String)
  | success (data : ClaudeAPIResponse)
  deriving DecidableEq

/-- `OpenAIToolCall.function` (ai.ts). -/
structure OpenAIToolCallFunction where
  name : String
  arguments : String
  deriving DecidableEq

/-- `OpenAIToolCall` (ai.ts): `type` is the literal "function" on the wire. -/
structure OpenAIToolCall where
  id : String
  type : String
  function : OpenAIToolCallFunction
  deriving DecidableEq

/-- The `message` of an OpenAI-chat choice.  The code never reads the message's
`role` field (always "assistant" on the wire), so it is omitted here. -/
structure ChatCompletionMessage where
  content : Option String
  tool_calls : Option (List OpenAIToolCall)
  deriving DecidableEq

/-- One element of `OpenAIAPIResponse.choices`. -/
structure Choice where
  finish_reason : String
  message : ChatCompletionMessage
  deriving DecidableEq

/-- OpenAI-chat usage object: `prompt_tokens` / `completion_tokens`, each optional. -/
structure ChatUsage where
  prompt_tokens : Option Nat
  completion_tokens : Option Nat
  deriving DecidableEq

/-- `OpenAIAPIResponse` (ai.ts). -/
structure OpenAIAPIResponse where
  choices : List Choice
  usage : Option ChatUsage
  deriving DecidableEq

/-- Outcome of one HTTP POST to an OpenAI-chat-dialect endpoint. -/
inductive HttpResult where
  | failure (status : Nat) (body : String)
  | success (data : OpenAIAPIResponse)
  deriving DecidableEq

/-- `OpenAIRequestMessage` (ai.ts): one transcript entry sent to the provider. -/
structure OpenAIRequestMessage where
  role : String
  content : Option String
  tool_calls : Option (List OpenAIToolCall) := none
  tool_call_id : Option String := none
  name : Option String := none
  deriving DecidableEq

/-- `OPENAI_COMPATIBLE_ENDPOINTS` (ai.ts): string-keyed record of chat endpoints. -/
def OPENAI_COMPATIBLE_ENDPOINTS (provider : String) : Option String :=
  if provider = "openai" then some "https://api.openai.com/v1/chat/completions"
  else if provider = "moonshot" then some "https://api.moonshot.ai/v1/chat/completions"
  else if provider = "grok" then some "https://api.x.ai/v1/chat/completions"
  else none

/-- `RESPONSES_API_ENDPOINTS` (ai.ts). -/
def RESPONSES_API_ENDPOINTS (provider : String) : Option String :=
  if provider = "openai" then some "https://api.openai.com/v1/responses"
  else if provider = "grok" then some "https://api.x.ai/v1/responses"
  else none

/-- `callClaude` (ai.ts): one POST; a non-ok status throws; otherwise the text is
`data.content[0]?.text ?? ""` and token counts come from the optional usage object. -/
def callClaude (http : ClaudeHttp) (apiKey model systemPrompt : String)
    (messages : List ConversationMessage) : Except AIError AIResponse × Nat :=
  match http with
  | ClaudeHttp.failure status body =>
      (Except.error (AIError.providerHttp "Claude" status body), 1)
  | ClaudeHttp.success data =>
      (Except.ok
        { text := (data.content.head?.map ClaudeContentBlock.text).getD ""
          inputTokens := data.usage.bind ClaudeUsage.input_tokens
          outputTokens := data.usage.bind ClaudeUsage.output_tokens
          webSearchQueries := none }, 1)

/-- `callOpenAICompatible` (ai.ts): endpoint lookup (throw when missing, before any
request), then one POST; a non-ok status throws; otherwise the text is
`data.choices[0]?.message.content ?? ""`.  The `thinking` value only shapes the
request payload (for moonshot) and never influences the observable outcome here. -/
def callOpenAICompatible (chat : Nat → HttpResult) (provider apiKey model systemPrompt : String)
    (messages : List ConversationMessage) (thinking : Option String) :
    Except AIError AIResponse × Nat :=
  match OPENAI_COMPATIBLE_ENDPOINTS provider with
  | none => (Except.error (AIError.noEndpoint provider), 0)
  | some _ =>
      match chat 0 with
      | HttpResult.failure status body =>
          (Except.error (AIError.providerHttp provider status body), 1)
      | HttpResult.success data =>
          (Except.ok
            { text := (data.choices.head?.bind (fun c => c.message.content)).getD ""
              inputTokens := data.usage.bind ChatUsage.prompt_tokens
              outputTokens := data.usage.bind ChatUsage.completion_tokens
              webSearchQueries := none }, 1)

/-- `MAX_TOOL_ITERATIONS` (ai.ts). -/
def MAX_TOOL_ITERATIONS : Nat := 5

/-- The assistant transcript entry pushed on the `tool_calls` branch of the loop:
`{role:"assistant", content: choice.message.content, tool_calls: choice.message.tool_calls}`. -/
def assistantToolMsg (content : Option String) (tcs : List OpenAIToolCall) :
    OpenAIRequestMessage :=
  { role := "assistant", content := content, tool_calls := some tcs }

/-- The synthetic tool-result transcript entry pushed per tool call:
`{role:"tool", tool_call_id: tc.id, name: tc.function.name, content: tc.function.arguments}`. -/
def toolResultMsg (tc : OpenAIToolCall) : OpenAIRequestMessage :=
  { role := "tool", content := some tc.function.arguments,
    tool_call_id := some tc.id, name := some tc.function.name }

/-- The transcript extension performed by one pass through the `tool_calls` branch:
push the assistant entry, then push one tool-result entry per tool call, in order. -/
def toolCallsStep (apiMessages : List OpenAIRequestMessage) (content : Option String)
    (tcs : List OpenAIToolCall) : List OpenAIRequestMessage :=
  (apiMessages ++ [assistantToolMsg content tcs]) ++ tcs.map toolResultMsg

/-- The result object built at both terminal-return sites of the loop (the `stop`
branch and the unexpected-finish-reason fall-through build the same object):
`{text: content ?? "", inputTokens, outputTokens, ...(searchQueries.length > 0 && ...)}`. -/
def terminalResult (content : Option String) (totIn totOut : Nat)
    (searchQueries : List String) (i : Nat) : Except AIError AIResponse × Nat :=
  (Except.ok
    { text := content.getD ""
      inputTokens := some totIn
      outputTokens := some totOut
      webSearchQueries := if searchQueries.length > 0 then some searchQueries else none },
    i + 1)

/-- The `for (let i = 0; i < MAX_TOOL_ITERATIONS; i++)` loop of
`callMoonshotWithSearch` (ai.ts), with the remaining iteration budget made an
explicit fuel argument (`fuel = MAX_TOOL_ITERATIONS - i`); the `i + 1` in each
exit is the number of HTTP requests issued so far.  Falling off the loop throws
`MaxIterationsExceeded` having issued `i` requests. -/
def moonshotLoop (chat : Nat → HttpResult) :
    Nat → Nat → List OpenAIRequestMessage → Nat → Nat → List String →
    Except AIError AIResponse × Nat
  | 0, i, _, _, _, _ => (Except.error AIError.maxIterations, i)
  | fuel + 1, i, apiMessages, totalInputTokens, totalOutputTokens, searchQueries =>
    match chat i with
    | HttpResult.failure status body =>
        (Except.error (AIError.providerHttp "moonshot" status body), i + 1)
    | HttpResult.success data =>
        let totIn := totalInputTokens + (data.usage.bind ChatUsage.prompt_tokens).getD 0
        let totOut := totalOutputTokens + (data.usage.bind ChatUsage.completion_tokens).getD 0
        match data.choices.head? with
        | none => (Except.error AIError.noChoices, i + 1)
        | some choice =>
          if choice.finish_reason = "stop" then
            terminalResult choice.message.content totIn totOut searchQueries i
          else if choice.finish_reason = "tool_calls" then
            -- JS truthiness of `choice.message.tool_calls`: present (even `[]`) is truthy
            match choice.message.tool_calls with
            | some tcs =>
                moonshotLoop chat fuel (i + 1)
                  (toolCallsStep apiMessages choice.message.content tcs)
                  totIn totOut
                  (searchQueries ++ tcs.map (fun tc => tc.function.arguments))
            | none => terminalResult choice.message.content totIn totOut searchQueries i
          else
            terminalResult choice.message.content totIn totOut searchQueries i

/-- The initial `apiMessages` array of `callMoonshotWithSearch` (and the `messages`
array of `callOpenAICompatible`): system prompt first, then the conversation. -/
def initialApiMessages (systemPrompt : String) (messages : List ConversationMessage) :
    List OpenAIRequestMessage :=
  { role := "system", content := some systemPrompt } ::
    messages.map (fun m => { role := m.role, content := some m.content })

/-- `callMoonshotWithSearch` (ai.ts): endpoint lookup, then the bounded tool-call loop
starting from the seeded transcript with zeroed accumulators. -/
def callMoonshotWithSearch (chat : Nat → HttpResult) (apiKey model systemPrompt : String)
    (messages : List ConversationMessage) (thinking : Option String) :
    Except AIError AIResponse × Nat :=
  match OPENAI_COMPATIBLE_ENDPOINTS "moonshot" with
  | none => (Except.error (AIError.noEndpoint "moonshot"), 0)
  | some _ =>
      moonshotLoop chat MAX_TOOL_ITERATIONS 0 (initialApiMessages systemPrompt messages) 0 0 []

/-- The prompt-token count a turn reports (`data.usage?.prompt_tokens ?? 0`);
0 for a failed exchange (the loop never reads usage there). -/
def promptOf : HttpResult → Nat
  | HttpResult.failure _ _ => 0
  | HttpResult.success data => (data.usage.bind ChatUsage.prompt_tokens).getD 0

/-- The completion-token count a turn reports (`data.usage?.completion_tokens ?? 0`). -/
def completionOf : HttpResult → Nat
  | HttpResult.failure _ _ => 0
  | HttpResult.success data => (data.usage.bind ChatUsage.completion_tokens).getD 0

/-- Sum of the reported prompt-token counts of `k` consecutive turns starting at
request index `i`. -/
def promptSum (chat : Nat → HttpResult) : Nat → Nat → Nat
  | _, 0 => 0
  | i, k + 1 => promptOf (chat i) + promptSum chat (i + 1) k

/-- Sum of the reported completion-token counts of `k` consecutive turns starting at
request index `i`. -/
def completionSum (chat : Nat → HttpResult) : Nat → Nat → Nat
  | _, 0 => 0
  | i, k + 1 => completionOf (chat i) + completionSum chat (i + 1) k

/-- The i-th exchange is an HTTP success whose first choice requests tool calls and
carries a present `tool_calls` field (the branch condition of the loop). -/
def IsToolCallsTurn (h : HttpResult) : Prop :=
  ∃ data choice tcs, h = HttpResult.success data ∧
    data.choices.head? = some choice ∧
    choice.finish_reason = "tool_calls" ∧
    choice.message.tool_calls = some tcs

/-- As `IsToolCallsTurn`, with a non-empty list of tool invocations. -/
def IsToolCallsTurnNE (h : HttpResult) : Prop :=
  ∃ data choice tcs, h = HttpResult.success data ∧
    data.choices.head? = some choice ∧
    choice.finish_reason = "tool_calls" ∧
    choice.message.tool_calls = some tcs ∧ tcs ≠ []

/-- The i-th exchange is an HTTP success whose first choice reports `stop`. -/
def IsStopTurn (h : HttpResult) : Prop :=
  ∃ data choice, h = HttpResult.success data ∧
    data.choices.head? = some choice ∧
    choice.finish_reason = "stop"

/-- One `output_text` content element of a Responses-API message output item. -/
structure ResponsesOutputText where
  text : String
  deriving DecidableEq

/-- `ResponsesAPIOutput` (ai.ts): the union of the `message` and `web_search_call`
typed output items. -/
inductive ResponsesOutput where
  | message (content : List ResponsesOutputText)
  | web_search_call
  deriving DecidableEq

/-- The predicate `item.type === "message"` used by the `find`. -/
def ResponsesOutput.isMessage : ResponsesOutput → Bool
  | ResponsesOutput.message _ => true
  | ResponsesOutput.web_search_call => false

/-- The predicate `item.type === "web_search_call"` used by the `filter`. -/
def ResponsesOutput.isWebSearchCall : ResponsesOutput → Bool
  | ResponsesOutput.message _ => false
  | ResponsesOutput.web_search_call => true

/-- The `content` of a message output item, when the item is one. -/
def ResponsesOutput.messageContent? : ResponsesOutput → Option (List ResponsesOutputText)
  | ResponsesOutput.message c => some c
  | ResponsesOutput.web_search_call => none

/-- `ResponsesAPIResponse` (ai.ts); the unused `id` field is omitted. -/
structure ResponsesAPIResponse where
  output : List ResponsesOutput
  usage : Option ChatUsage
  deriving DecidableEq

/-- Outcome of the one HTTP POST `callResponsesAPIWithSearch` performs. -/
inductive ResponsesHttp where
  | failure (status : Nat) (body : String)
  | success (data : ResponsesAPIResponse)
  deriving DecidableEq

/-- `callResponsesAPIWithSearch` (ai.ts): endpoint lookup, one POST, then take the
text of the first content element of the first `message` output item
(`messageOutput?.content[0]?.text ?? ""`) and summarize `web_search_call` items. -/
def callResponsesAPIWithSearch (http : ResponsesHttp) (provider apiKey model systemPrompt : String)
    (messages : List ConversationMessage) : Except AIError AIResponse × Nat :=
  match RESPONSES_API_ENDPOINTS provider with
  | none => (Except.error (AIError.noResponsesEndpoint provider), 0)
  | some _ =>
      match http with
      | ResponsesHttp.failure status body =>
          (Except.error (AIError.providerHttp provider status body), 1)
      | ResponsesHttp.success data =>
          let messageOutput := data.output.find? ResponsesOutput.isMessage
          let text :=
            (((messageOutput.bind ResponsesOutput.messageContent?).bind List.head?).map
              ResponsesOutputText.text).getD ""
          let searchCalls := data.output.filter ResponsesOutput.isWebSearchCall
          (Except.ok
            { text := text
              inputTokens := data.usage.bind ChatUsage.prompt_tokens
              outputTokens := data.usage.bind ChatUsage.completion_tokens
              webSearchQueries :=
                if searchCalls.length > 0 then
                  some ["web_search (" ++ toString searchCalls.length ++ " call(s))"]
                else none }, 1)

/-- `GenerateResponseOptions` (ai.ts).  `thinking` is typed `ThinkingMode`
("disabled" | "enabled" | "auto") statically, but the erased runtime value is an
arbitrary string, which is what the functions actually receive. -/
structure GenerateResponseOptions where
  webSearch : Option Bool := none
  thinking : Option String := none
  deriving DecidableEq

/-- The three `ThinkingMode` enumeration members, for stating claims about them. -/
def thinkingModes : List String := ["disabled", "enabled", "auto"]

/-- `generateResponse` (ai.ts): the gateway facade.  The switch over the provider
identifier dispatches to the dialect callers; `options?.webSearch` picks the
tool-enabled variant for moonshot (chat loop) and for grok/openai (Responses API);
an unrecognized provider throws before any request.  The three oracles stand for
the network seen by whichever caller runs. -/
def generateResponse (provider apiKey model systemPrompt : String)
    (messages : List ConversationMessage) (options : Option GenerateResponseOptions)
    (claudeHttp : ClaudeHttp) (chat : Nat → HttpResult) (responsesHttp : ResponsesHttp) :
    Except AIError AIResponse × Nat :=
  if provider = "claude" then
    callClaude claudeHttp apiKey model systemPrompt messages
  else if provider = "moonshot" then
    if (options.bind GenerateResponseOptions.webSearch).getD false then
      callMoonshotWithSearch chat apiKey model systemPrompt messages
        (options.bind GenerateResponseOptions.thinking)
    else
      callOpenAICompatible chat "moonshot" apiKey model systemPrompt messages
        (options.bind GenerateResponseOptions.thinking)
  else if provider = "grok" then
    if (options.bind GenerateResponseOptions.webSearch).getD false then
      callResponsesAPIWithSearch responsesHttp "grok" apiKey model systemPrompt messages
    else
      callOpenAICompatible chat "grok" apiKey model systemPrompt messages
        (options.bind GenerateResponseOptions.thinking)
  else if provider = "openai" then
    if (options.bind GenerateResponseOptions.webSearch).getD false then
      callResponsesAPIWithSearch responsesHttp "openai" apiKey model systemPrompt messages
    else
      callOpenAICompatible chat "openai" apiKey model systemPrompt messages
        (options.bind GenerateResponseOptions.thinking)
  else
    (Except.error (AIError.unknownProvider provider), 0)

/-- A concrete web-search tool call, for concrete runs. -/
def sampleToolCall : OpenAIToolCall :=
  { id := "call_1", type := "function",
    function := { name := "$web_search", arguments := "query one" } }

/-- A turn whose first choice requests one tool call (usage 10/5). -/
def toolCallsTurn : HttpResult :=
  HttpResult.success
    { choices := [{ finish_reason := "tool_calls",
                    message := { content := none, tool_calls := some [sampleToolCall] } }],
      usage := some { prompt_tokens := some 10, completion_tokens := some 5 } }

/-- A second tool-call turn (usage 12/6). -/
def toolCallsTurn2 : HttpResult :=
  HttpResult.success
    { choices := [{ finish_reason := "tool_calls",
                    message := { content := none, tool_calls := some [sampleToolCall] } }],
      usage := some { prompt_tokens := some 12, completion_tokens := some 6 } }

/-- A terminal `stop` turn with text "done" (usage 8/2). -/
def stopTurn : HttpResult :=
  HttpResult.success
    { choices := [{ finish_reason := "stop",
                    message := { content := some "done", tool_calls := none } }],
      usage := some { prompt_tokens := some 8, completion_tokens := some 2 } }

/-- A script of tool-call turns only: the provider never stops requesting tools. -/
def c1Chat : Nat → HttpResult := fun _ => toolCallsTurn

/-- The script tool_calls, tool_calls, stop. -/
def c2Chat : Nat → HttpResult := fun i =>
  if i = 0 then toolCallsTurn
  else if i = 1 then toolCallsTurn2
  else stopTurn

/-- A script with an empty choices array on the (only) turn (usage 5/7). -/
def c3Chat : Nat → HttpResult := fun _ =>
  HttpResult.success
    { choices := [],
      usage := some { prompt_tokens := some 5, completion_tokens := some 7 } }

/-- A script whose second turn is an HTTP 500. -/
def c4Chat : Nat → HttpResult := fun i =>
  if i = 0 then toolCallsTurn else HttpResult.failure 500 "server error"

/-- A turn reporting `tool_calls` with an *empty* tool_calls array (usage 1/2). -/
def emptyToolCallsTurn : HttpResult :=
  HttpResult.success
    { choices := [{ finish_reason := "tool_calls",
                    message := { content := some "first", tool_calls := some [] } }],
      usage := some { prompt_tokens := some 1, completion_tokens := some 2 } }

/-- The empty-tool-calls turn followed by a stop turn (usage 3/4). -/
def c5Chat : Nat → HttpResult := fun i =>
  if i = 0 then emptyToolCallsTurn
  else HttpResult.success
    { choices := [{ finish_reason := "stop",
                    message := { content := some "done", tool_calls := none } }],
      usage := some { prompt_tokens := some 3, completion_tokens := some 4 } }

/-- A single turn with the unrecognized finish reason "length" (usage 10/100). -/
def c5LengthChat : Nat → HttpResult := fun _ =>
  HttpResult.success
    { choices := [{ finish_reason := "length",
                    message := { content := some "Truncated response", tool_calls := none } }],
      usage := some { prompt_tokens := some 10, completion_tokens := some 100 } }

/-- A single plain stop turn with text "hi" (usage 3/4). -/
def c6Chat : Nat → HttpResult := fun _ =>
  HttpResult.success
    { choices := [{ finish_reason := "stop",
                    message := { content := some "hi", tool_calls := none } }],
      usage := some { prompt_tokens := some 3, completion_tokens := some 4 } }

/-- A turn whose finish reason is `tool_calls` but whose message has no tool_calls
field at all. -/
def c10Chat : Nat → HttpResult := fun _ =>
  HttpResult.success
    { choices := [{ finish_reason := "tool_calls",
                    message := { content := some "weird", tool_calls := none } }],
      usage := some { prompt_tokens := some 9, completion_tokens := some 1 } }

/-- Unfolding the loop on a failed HTTP exchange. -/
theorem moonshotLoop_step_fail (chat : Nat → HttpResult) (fuel i : Nat)
    (msgs : List OpenAIRequestMessage) (a b : Nat) (q : List String)
    (status : Nat) (body : String)
    (hf : chat i = HttpResult.failure status body) :
    moonshotLoop chat (fuel + 1) i msgs a b q =
      (Except.error (AIError.providerHttp "moonshot" status body), i + 1) := by
  simp [moonshotLoop, hf]

/-- Unfolding the loop on a success exchange with an empty choices array. -/
theorem moonshotLoop_step_noChoices (chat : Nat → HttpResult) (fuel i : Nat)
    (msgs : List OpenAIRequestMessage) (a b : Nat) (q : List String)
    (data : OpenAIAPIResponse)
    (hf : chat i = HttpResult.success data)
    (hc : data.choices = []) :
    moonshotLoop chat (fuel + 1) i msgs a b q = (Except.error AIError.noChoices, i + 1) := by
  simp [moonshotLoop, hf, hc]

/-- Unfolding the loop on a `stop` turn. -/
theorem moonshotLoop_step_stop (chat : Nat → HttpResult) (fuel i : Nat)
    (msgs : List OpenAIRequestMessage) (a b : Nat) (q : List String)
    (data : OpenAIAPIResponse) (choice : Choice)
    (hf : chat i = HttpResult.success data)
    (hc : data.choices.head? = some choice)
    (hr : choice.finish_reason = "stop") :
    moonshotLoop chat (fuel + 1) i msgs a b q =
      terminalResult choice.message.content (a + promptOf (chat i)) (b + completionOf (chat i)) q i := by
  simp [moonshotLoop, hf, hc, hr, promptOf, completionOf]

/-- Unfolding the loop on a `tool_calls` turn with a present `tool_calls` field:
the loop recurses on the transcript extended by `toolCallsStep`, with the turn's
usage accumulated and its arguments recorded in the search trace. -/
theorem moonshotLoop_step_toolCalls (chat : Nat → HttpResult) (fuel i : Nat)
    (msgs : List OpenAIRequestMessage) (a b : Nat) (q : List String)
    (data : OpenAIAPIResponse) (choice : Choice) (tcs : List OpenAIToolCall)
    (hf : chat i = HttpResult.success data)
    (hc : data.choices.head? = some choice)
    (hr : choice.finish_reason = "tool_calls")
    (ht : choice.message.tool_calls = some tcs) :
    moonshotLoop chat (fuel + 1) i msgs a b q =
      moonshotLoop chat fuel (i + 1) (toolCallsStep msgs choice.message.content tcs)
        (a + promptOf (chat i)) (b + completionOf (chat i))
        (q ++ tcs.map (fun tc => tc.function.arguments)) := by
  simp [moonshotLoop, hf, hc, hr, ht, promptOf, completionOf]

/-- Unfolding the loop on a turn that is neither `stop` nor `tool_calls`-with-a-
present-`tool_calls`-field: the unexpected-finish-reason fall-through is terminal. -/
theorem moonshotLoop_step_other (chat : Nat → HttpResult) (fuel i : Nat)
    (msgs : List OpenAIRequestMessage) (a b : Nat) (q : List String)
    (data : OpenAIAPIResponse) (choice : Choice)
    (hf : chat i = HttpResult.success data)
    (hc : data.choices.head? = some choice)
    (hstop : choice.finish_reason ≠ "stop")
    (hnot : ¬(choice.finish_reason = "tool_calls" ∧ choice.message.tool_calls.isSome)) :
    moonshotLoop chat (fuel + 1) i msgs a b q =
      terminalResult choice.message.content (a + promptOf (chat i)) (b + completionOf (chat i)) q i := by
  by_cases htc : choice.finish_reason = "tool_calls"
  · have hnone : choice.message.tool_calls = none := by
      cases h : choice.message.tool_calls with
      | none => rfl
      | some tcs => exact absurd ⟨htc, by simp [h]⟩ hnot
    simp [moonshotLoop, hf, hc, hstop, htc, hnone, promptOf, completionOf]
  · simp [moonshotLoop, hf, hc, hstop, htc, promptOf, completionOf]

/-- Appending one more turn on the right of a prompt-token sum. -/
theorem promptSum_succ_right (chat : Nat → HttpResult) :
    ∀ (k i : Nat), promptSum chat i (k + 1) = promptSum chat i k + promptOf (chat (i + k)) := by
  intro k
  induction k with
  | zero => intro i; simp [promptSum]
  | succ k ih =>
      intro i
      rw [promptSum, ih (i + 1), promptSum]
      have e : i + 1 + k = i + (k + 1) := by omega
      rw [e]
      omega

/-- Appending one more turn on the right of a completion-token sum. -/
theorem completionSum_succ_right (chat : Nat → HttpResult) :
    ∀ (k i : Nat), completionSum chat i (k + 1) =
      completionSum chat i k + completionOf (chat (i + k)) := by
  intro k
  induction k with
  | zero => intro i; simp [completionSum]
  | succ k ih =>
      intro i
      rw [completionSum, ih (i + 1), completionSum]
      have e : i + 1 + k = i + (k + 1) := by omega
      rw [e]
      omega

/-- Advancing the loop through `d` consecutive tool-call turns: after `d` such
turns the loop is still running, `d` more requests have been issued, and the
two accumulators have grown by exactly the sums of the `d` turns' usage. -/
theorem moonshotLoop_toolCalls_advance (chat : Nat → HttpResult) :
    ∀ (d fuel i : Nat) (msgs : List OpenAIRequestMessage) (a b : Nat) (q : List String),
      d ≤ fuel →
      (∀ j, i ≤ j → j < i + d → IsToolCallsTurn (chat j)) →
      ∃ msgs' q', moonshotLoop chat fuel i msgs a b q =
        moonshotLoop chat (fuel - d) (i + d) msgs'
          (a + promptSum chat i d) (b + completionSum chat i d) q' := by
  intro d
  induction d with
  | zero =>
      intro fuel i msgs a b q _ _
      exact ⟨msgs, q, by simp [promptSum, completionSum]⟩
  | succ d ih =>
      intro fuel i msgs a b q hle hturns
      obtain ⟨fuel, rfl⟩ : ∃ fuel', fuel = fuel' + 1 := by
        cases fuel with
        | zero => omega
        | succ f => exact ⟨f, rfl⟩
      obtain ⟨data, choice, tcs, hf, hc, hr, ht⟩ :=
        hturns i (Nat.le_refl i) (by omega)
      rw [moonshotLoop_step_toolCalls chat fuel i msgs a b q data choice tcs hf hc hr ht]
      obtain ⟨msgs', q', heq⟩ := ih fuel (i + 1)
        (toolCallsStep msgs choice.message.content tcs)
        (a + promptOf (chat i)) (b + completionOf (chat i))
        (q ++ tcs.map (fun tc => tc.function.arguments))
        (by omega) (fun j h1 h2 => hturns j (by omega) (by omega))
      refine ⟨msgs', q', ?_⟩
      rw [heq]
      have e1 : fuel - d = fuel + 1 - (d + 1) := by omega
      have e2 : i + 1 + d = i + (d + 1) := by omega
      have e3 : a + promptOf (chat i) + promptSum chat (i + 1) d =
          a + promptSum chat i (d + 1) := by
        rw [promptSum]; omega
      have e4 : b + completionOf (chat i) + completionSum chat (i + 1) d =
          b + completionSum chat i (d + 1) := by
        rw [completionSum]; omega
      rw [e1, e2, e3, e4]

/-- C9: for every provider identifier not in the recognized set
("claude", "moonshot", "grok", "openai"), `generateResponse` fails with the
unknown-provider error and issues zero HTTP requests. -/
theorem c9_unknown_provider_no_requests (provider apiKey model systemPrompt : String)
    (messages : List ConversationMessage) (options : Option GenerateResponseOptions)
    (claudeHttp : ClaudeHttp) (chat : Nat → HttpResult) (responsesHttp : ResponsesHttp)
    (h1 : provider ≠ "claude") (h2 : provider ≠ "moonshot")
    (h3 : provider ≠ "grok") (h4 : provider ≠ "openai") :
    generateResponse provider apiKey model systemPrompt messages options
        claudeHttp chat responsesHttp =
      (Except.error (AIError.unknownProvider provider), 0) := by
  simp [generateResponse, h1, h2, h3, h4]

/-- Witness for C9 at the concrete provider "gemini". -/
theorem c9_witness :
    generateResponse "gemini" "key" "model" "sys" [] none
        (ClaudeHttp.success { content := [], usage := none }) c1Chat
        (ResponsesHttp.success { output := [], usage := none }) =
      (Except.error (AIError.unknownProvider "gemini"), 0) :=
  c9_unknown_provider_no_requests "gemini" "key" "model" "sys" [] none
    (ClaudeHttp.success { content := [], usage := none }) c1Chat
    (ResponsesHttp.success { output := [], usage := none })
    (by decide) (by decide) (by decide) (by decide)

/-- C10: a turn whose stop signal is "tool_calls" but whose message carries no
tool_calls array does not error and does not iterate again: the loop falls through
to the terminal branch and returns the turn's content (empty string when null) with
the accumulated usage totals, after this one extra request. -/
theorem c10_toolcalls_missing_array_terminal (chat : Nat → HttpResult) (fuel i : Nat)
    (msgs : List OpenAIRequestMessage) (a b : Nat) (q : List String)
    (data : OpenAIAPIResponse) (choice : Choice)
    (hf : chat i = HttpResult.success data)
    (hc : data.choices.head? = some choice)
    (hr : choice.finish_reason = "tool_calls")
    (ht : choice.message.tool_calls = none) :
    moonshotLoop chat (fuel + 1) i msgs a b q =
      (Except.ok
        { text := choice.message.content.getD ""
          inputTokens := some (a + promptOf (chat i))
          outputTokens := some (b + completionOf (chat i))
          webSearchQueries := if q.length > 0 then some q else none }, i + 1) := by
  have hstop : choice.finish_reason ≠ "stop" := by rw [hr]; decide
  rw [moonshotLoop_step_other chat fuel i msgs a b q data choice hf hc hstop
    (by simp [ht])]
  rfl

/-- Witness for C10 at a concrete turn (finish reason "tool_calls", no array). -/
theorem c10_witness :
    moonshotLoop c10Chat 5 0 [] 0 0 [] =
      (Except.ok { text := "weird", inputTokens := some 9, outputTokens := some 1,
                   webSearchQueries := none }, 1) := by
  have h := c10_toolcalls_missing_array_terminal c10Chat 4 0 [] 0 0 []
    { choices := [{ finish_reason := "tool_calls",
                    message := { content := some "weird", tool_calls := none } }],
      usage := some { prompt_tokens := some 9, completion_tokens := some 1 } }
    { finish_reason := "tool_calls",
      message := { content := some "weird", tool_calls := none } }
    rfl rfl rfl rfl
  exact h

/-- C5 counterexample: the turn `finish_reason = "tool_calls"` with an *empty*
tool_calls array is neither "stop" nor accompanied by any tool invocation, yet the
loop does not terminate on it: it appends the placeholder turns and issues a second
request, returning the second turn's text after 2 requests — not the first turn's
text after 1. -/
theorem c5_counterexample :
    callMoonshotWithSearch c5Chat "key" "model" "sys" [] none =
      (Except.ok { text := "done", inputTokens := some 4, outputTokens := some 6,
                   webSearchQueries := none }, 2) ∧
    callMoonshotWithSearch c5Chat "key" "model" "sys" [] none ≠
      (Except.ok { text := "first", inputTokens := some 1, outputTokens := some 2,
                   webSearchQueries := none }, 1) := by
  have h1 : callMoonshotWithSearch c5Chat "key" "model" "sys" [] none =
      (Except.ok { text := "done", inputTokens := some 4, outputTokens := some 6,
                   webSearchQueries := none }, 2) := rfl
  refine ⟨h1, ?_⟩
  rw [h1]
  intro hcontra
  exact absurd (congrArg Prod.snd hcontra) (by decide)

/-- C5 amended: a turn whose stop signal is neither "stop" nor "tool_calls" with a
*present* tool_calls field (presence, not non-emptiness, selects the tool-call
branch) is terminal: the loop returns the turn's content (empty string when null)
together with the accumulated usage totals and search-trace entries, and does not
fail or loop again. -/
theorem c5_unrecognized_signal_terminal (chat : Nat → HttpResult) (fuel i : Nat)
    (msgs : List OpenAIRequestMessage) (a b : Nat) (q : List String)
    (data : OpenAIAPIResponse) (choice : Choice)
    (hf : chat i = HttpResult.success data)
    (hc : data.choices.head? = some choice)
    (hstop : choice.finish_reason ≠ "stop")
    (hnot : ¬(choice.finish_reason = "tool_calls" ∧ choice.message.tool_calls.isSome)) :
    moonshotLoop chat (fuel + 1) i msgs a b q =
      (Except.ok
        { text := choice.message.content.getD ""
          inputTokens := some (a + promptOf (chat i))
          outputTokens := some (b + completionOf (chat i))
          webSearchQueries := if q.length > 0 then some q else none }, i + 1) := by
  rw [moonshotLoop_step_other chat fuel i msgs a b q data choice hf hc hstop hnot]
  rfl

/-- Witness for the amended C5 at the concrete finish reason "length". -/
theorem c5_witness :
    moonshotLoop c5LengthChat 5 0 [] 0 0 [] =
      (Except.ok { text := "Truncated response", inputTokens := some 10,
                   outputTokens := some 100, webSearchQueries := none }, 1) := by
  have h := c5_unrecognized_signal_terminal c5LengthChat 4 0 [] 0 0 []
    { choices := [{ finish_reason := "length",
                    message := { content := some "Truncated response", tool_calls := none } }],
      usage := some { prompt_tokens := some 10, completion_tokens := some 100 } }
    { finish_reason := "length",
      message := { content := some "Truncated response", tool_calls := none } }
    rfl rfl (by decide) (by decide)
  exact h

/-- C1: with web search enabled for moonshot, when every executed turn is an HTTP
success whose stop signal is "tool_calls" with a non-empty tool_calls list, the
loop executes exactly 5 turns — one HTTP request each, never a sixth — and then
fails with the max-iterations error. -/
theorem c1_loop_cap_five_requests (chat : Nat → HttpResult)
    (apiKey model systemPrompt : String) (messages : List ConversationMessage)
    (thinking : Option String)
    (h : ∀ j, j < 5 → IsToolCallsTurnNE (chat j)) :
    callMoonshotWithSearch chat apiKey model systemPrompt messages thinking =
      (Except.error AIError.maxIterations, 5) := by
  obtain ⟨msgs', q', heq⟩ := moonshotLoop_toolCalls_advance chat 5 5 0
    (initialApiMessages systemPrompt messages) 0 0 [] (Nat.le_refl 5)
    (fun j hj1 hj2 => by
      obtain ⟨data, choice, tcs, hf, hc, hr, ht, _⟩ := h j (by omega)
      exact ⟨data, choice, tcs, hf, hc, hr, ht⟩)
  have hcall : callMoonshotWithSearch chat apiKey model systemPrompt messages thinking =
      moonshotLoop chat 5 0 (initialApiMessages systemPrompt messages) 0 0 [] := rfl
  rw [hcall, heq]
  rfl

/-- Witness for C1: five consecutive non-empty tool-call turns. -/
theorem c1_witness :
    callMoonshotWithSearch c1Chat "key" "model" "sys" [] none =
      (Except.error AIError.maxIterations, 5) :=
  c1_loop_cap_five_requests c1Chat "key" "model" "sys" [] none
    (fun j hj => ⟨_, _, _, rfl, rfl, rfl, rfl, by simp⟩)

/-- C4: when turn k of the loop (first or later; earlier turns being tool-call
turns) returns a non-success HTTP status, the call fails with the provider-HTTP
error carrying that exact status and body after k+1 requests; no CanonicalResult is
returned, so the usage accumulated on the earlier successful turns appears in no
returned value. -/
theorem c4_http_error_aborts_loop (chat : Nat → HttpResult)
    (apiKey model systemPrompt : String) (messages : List ConversationMessage)
    (thinking : Option String) (k status : Nat) (body : String)
    (hpre : ∀ j, j < k → IsToolCallsTurn (chat j))
    (hf : chat k = HttpResult.failure status body)
    (hk : k < 5) :
    callMoonshotWithSearch chat apiKey model systemPrompt messages thinking =
      (Except.error (AIError.providerHttp "moonshot" status body), k + 1) := by
  obtain ⟨msgs', q', heq⟩ := moonshotLoop_toolCalls_advance chat k 5 0
    (initialApiMessages systemPrompt messages) 0 0 [] (by omega)
    (fun j hj1 hj2 => hpre j (by omega))
  obtain ⟨fuel, hfuel⟩ : ∃ f, 5 - k = f + 1 := ⟨4 - k, by omega⟩
  have hcall : callMoonshotWithSearch chat apiKey model systemPrompt messages thinking =
      moonshotLoop chat 5 0 (initialApiMessages systemPrompt messages) 0 0 [] := rfl
  rw [hcall, heq, hfuel]
  simp only [Nat.zero_add]
  exact moonshotLoop_step_fail chat fuel k msgs' (promptSum chat 0 k)
    (completionSum chat 0 k) q' status body hf

/-- Witness for C4: a tool-call turn followed by an HTTP 500. -/
theorem c4_witness :
    callMoonshotWithSearch c4Chat "key" "model" "sys" [] none =
      (Except.error (AIError.providerHttp "moonshot" 500 "server error"), 2) := by
  have h := c4_http_error_aborts_loop c4Chat "key" "model" "sys" [] none 1 500 "server error"
    (by
      intro j hj
      interval_cases j
      exact ⟨_, _, _, rfl, rfl, rfl, rfl⟩)
    rfl (by omega)
  exact h

/-- C2: a tool-call-loop run whose first n-1 turns are tool-call turns and whose
n-th turn reports the terminal "stop" signal — every turn an HTTP success — issues
exactly n HTTP requests and returns inputTokens/outputTokens equal to the
arithmetic sums of all n turns' reported usage, the final terminal turn included. -/
theorem c2_usage_sum_across_turns (chat : Nat → HttpResult)
    (apiKey model systemPrompt : String) (messages : List ConversationMessage)
    (thinking : Option String) (n : Nat)
    (hn1 : 1 ≤ n) (hn5 : n ≤ 5)
    (hpre : ∀ j, j + 1 < n → IsToolCallsTurn (chat j))
    (hstop : IsStopTurn (chat (n - 1))) :
    ∃ r, callMoonshotWithSearch chat apiKey model systemPrompt messages thinking =
        (Except.ok r, n) ∧
      r.inputTokens = some (promptSum chat 0 n) ∧
      r.outputTokens = some (completionSum chat 0 n) := by
  obtain ⟨data, choice, hf, hc, hr⟩ := hstop
  obtain ⟨msgs', q', heq⟩ := moonshotLoop_toolCalls_advance chat (n - 1) 5 0
    (initialApiMessages systemPrompt messages) 0 0 [] (by omega)
    (fun j hj1 hj2 => hpre j (by omega))
  obtain ⟨fuel, hfuel⟩ : ∃ f, 5 - (n - 1) = f + 1 := ⟨5 - n, by omega⟩
  have hcall : callMoonshotWithSearch chat apiKey model systemPrompt messages thinking =
      moonshotLoop chat 5 0 (initialApiMessages systemPrompt messages) 0 0 [] := rfl
  rw [hcall, heq, hfuel]
  simp only [Nat.zero_add]
  rw [moonshotLoop_step_stop chat fuel (n - 1) msgs' (promptSum chat 0 (n - 1))
    (completionSum chat 0 (n - 1)) q' data choice hf hc hr]
  have hn : n - 1 + 1 = n := by omega
  have hps : promptSum chat 0 (n - 1) + promptOf (chat (n - 1)) = promptSum chat 0 n := by
    have h := promptSum_succ_right chat (n - 1) 0
    rw [Nat.zero_add, hn] at h
    exact h.symm
  have hcs : completionSum chat 0 (n - 1) + completionOf (chat (n - 1)) =
      completionSum chat 0 n := by
    have h := completionSum_succ_right chat (n - 1) 0
    rw [Nat.zero_add, hn] at h
    exact h.symm
  refine ⟨{ text := choice.message.content.getD ""
            inputTokens := some (promptSum chat 0 n)
            outputTokens := some (completionSum chat 0 n)
            webSearchQueries := if q'.length > 0 then some q' else none }, ?_, rfl, rfl⟩
  simp [terminalResult, hps, hcs, hn]

/-- Witness for C2 on the concrete script tool_calls, tool_calls, stop with usages
10/5, 12/6, 8/2: three requests and totals 30/13. -/
theorem c2_witness :
    ∃ r, callMoonshotWithSearch c2Chat "key" "model" "sys" [] none = (Except.ok r, 3) ∧
      r.inputTokens = some 30 ∧ r.outputTokens = some 13 := by
  obtain ⟨r, h1, h2, h3⟩ := c2_usage_sum_across_turns c2Chat "key" "model" "sys" [] none 3
    (by omega) (by omega)
    (by
      intro j hj
      have hj2 : j < 2 := by omega
      interval_cases j
      · exact ⟨_, _, _, rfl, rfl, rfl, rfl⟩
      · exact ⟨_, _, _, rfl, rfl, rfl, rfl⟩)
    ⟨_, _, rfl, rfl, rfl⟩
  refine ⟨r, h1, ?_, ?_⟩
  · rw [h2]; rfl
  · rw [h3]; rfl

/-- C3 counterexample: with HTTP success and an empty content/choices array, the
single-turn Claude and OpenAI-chat callers return an ok result with empty text
instead of failing with a shape error. -/
theorem c3_counterexample :
    callClaude (ClaudeHttp.success { content := [], usage := none })
        "key" "model" "sys" [] =
      (Except.ok { text := "", inputTokens := none, outputTokens := none,
                   webSearchQueries := none }, 1) ∧
    callOpenAICompatible c3Chat "openai" "key" "model" "sys" [] none =
      (Except.ok { text := "", inputTokens := some 5, outputTokens := some 7,
                   webSearchQueries := none }, 1) := ⟨rfl, rfl⟩

/-- C3 amended: on HTTP success with an empty choices/content array, the single-turn
callers return an ok result with empty text (and the reported usage) rather than
failing; only the tool-call loop fails — with its no-choices error — on an empty
choices array. -/
theorem c3_empty_array_returns_empty_text (apiKey model systemPrompt : String)
    (messages : List ConversationMessage) (cu : Option ClaudeUsage) (ou : Option ChatUsage)
    (provider url : String) (chat : Nat → HttpResult) (thinking : Option String)
    (fuel i : Nat) (msgs : List OpenAIRequestMessage) (a b : Nat) (q : List String)
    (data : OpenAIAPIResponse)
    (hurl : OPENAI_COMPATIBLE_ENDPOINTS provider = some url)
    (hchat : chat 0 = HttpResult.success { choices := [], usage := ou })
    (hdata : chat i = HttpResult.success data)
    (hempty : data.choices = []) :
    callClaude (ClaudeHttp.success { content := [], usage := cu })
        apiKey model systemPrompt messages =
      (Except.ok { text := "", inputTokens := cu.bind ClaudeUsage.input_tokens,
                   outputTokens := cu.bind ClaudeUsage.output_tokens,
                   webSearchQueries := none }, 1) ∧
    callOpenAICompatible chat provider apiKey model systemPrompt messages thinking =
      (Except.ok { text := "", inputTokens := ou.bind ChatUsage.prompt_tokens,
                   outputTokens := ou.bind ChatUsage.completion_tokens,
                   webSearchQueries := none }, 1) ∧
    moonshotLoop chat (fuel + 1) i msgs a b q = (Except.error AIError.noChoices, i + 1) := by
  refine ⟨rfl, ?_, ?_⟩
  · simp [callOpenAICompatible, hurl, hchat]
  · exact moonshotLoop_step_noChoices chat fuel i msgs a b q data hdata hempty

/-- Witness for the amended C3 at concrete empty-array responses. -/
theorem c3_witness :
    callClaude (ClaudeHttp.success { content := [], usage := none })
        "key" "model" "sys" [] =
      (Except.ok { text := "", inputTokens := none, outputTokens := none,
                   webSearchQueries := none }, 1) ∧
    callOpenAICompatible c3Chat "openai" "key" "model" "sys" [] none =
      (Except.ok { text := "", inputTokens := some 5, outputTokens := some 7,
                   webSearchQueries := none }, 1) ∧
    moonshotLoop c3Chat 5 0 [] 0 0 [] = (Except.error AIError.noChoices, 1) := by
  have h := c3_empty_array_returns_empty_text "key" "model" "sys" [] none
    (some { prompt_tokens := some 5, completion_tokens := some 7 })
    "openai" "https://api.openai.com/v1/chat/completions" c3Chat none 4 0 [] 0 0 []
    { choices := [],
      usage := some { prompt_tokens := some 5, completion_tokens := some 7 } }
    rfl rfl rfl rfl
  exact h

/-- C6 counterexample: an out-of-enum thinking value ("bogus") does not fail fast
with a validation error: the call still issues its one HTTP request (request count
1, not 0) and returns the provider's answer.  No InvalidOption failure exists in
the module's error repertoire. -/
theorem c6_counterexample :
    "bogus" ∉ thinkingModes ∧
    generateResponse "moonshot" "key" "model" "sys" []
        (some { webSearch := some false, thinking := some "bogus" })
        (ClaudeHttp.success { content := [], usage := none }) c6Chat
        (ResponsesHttp.success { output := [], usage := none }) =
      (Except.ok { text := "hi", inputTokens := some 3, outputTokens := some 4,
                   webSearchQueries := none }, 1) :=
  ⟨by decide, rfl⟩

/-- C6 amended: the thinking enumeration is enforced only by the static type
system; at runtime `generateResponse` performs no validation of the thinking value:
for every thinking string — inside or outside the enumeration — the moonshot path
dispatches to the single-turn caller, which passes the value through and issues
exactly one HTTP request (so nothing ever fails before or instead of the request
on account of the thinking value). -/
theorem c6_no_runtime_thinking_validation (t : Option String)
    (apiKey model systemPrompt : String) (messages : List ConversationMessage)
    (claudeHttp : ClaudeHttp) (chat : Nat → HttpResult) (responsesHttp : ResponsesHttp) :
    generateResponse "moonshot" apiKey model systemPrompt messages
        (some { webSearch := some false, thinking := t }) claudeHttp chat responsesHttp =
      callOpenAICompatible chat "moonshot" apiKey model systemPrompt messages t ∧
    (generateResponse "moonshot" apiKey model systemPrompt messages
        (some { webSearch := some false, thinking := t }) claudeHttp chat responsesHttp).2
      = 1 := by
  have h1 : generateResponse "moonshot" apiKey model systemPrompt messages
      (some { webSearch := some false, thinking := t }) claudeHttp chat responsesHttp =
      callOpenAICompatible chat "moonshot" apiKey model systemPrompt messages t := rfl
  refine ⟨h1, ?_⟩
  rw [h1]
  have he : OPENAI_COMPATIBLE_ENDPOINTS "moonshot" =
      some "https://api.moonshot.ai/v1/chat/completions" := rfl
  cases hc : chat 0 with
  | failure status body => simp [callOpenAICompatible, he, hc]
  | success data => simp [callOpenAICompatible, he, hc]

/-- C7: on an iteration taking the tool_calls branch with k invocations, the
transcript is extended by exactly 1 + k entries — one assistant entry carrying the
raw tool-call descriptors, then one tool-result entry per invocation echoing its
id, name and raw arguments — the old transcript is a prefix of the new one
(nothing is removed), its length strictly increases, and the loop recurses on
exactly this extended transcript. -/
theorem c7_toolcalls_transcript_growth (chat : Nat → HttpResult) (fuel i : Nat)
    (msgs : List OpenAIRequestMessage) (a b : Nat) (q : List String)
    (data : OpenAIAPIResponse) (choice : Choice) (tcs : List OpenAIToolCall)
    (hf : chat i = HttpResult.success data)
    (hc : data.choices.head? = some choice)
    (hr : choice.finish_reason = "tool_calls")
    (ht : choice.message.tool_calls = some tcs) :
    toolCallsStep msgs choice.message.content tcs =
        msgs ++ assistantToolMsg choice.message.content tcs :: tcs.map toolResultMsg ∧
    (toolCallsStep msgs choice.message.content tcs).length =
        msgs.length + 1 + tcs.length ∧
    msgs <+: toolCallsStep msgs choice.message.content tcs ∧
    msgs.length < (toolCallsStep msgs choice.message.content tcs).length ∧
    moonshotLoop chat (fuel + 1) i msgs a b q =
      moonshotLoop chat fuel (i + 1) (toolCallsStep msgs choice.message.content tcs)
        (a + promptOf (chat i)) (b + completionOf (chat i))
        (q ++ tcs.map (fun tc => tc.function.arguments)) := by
  refine ⟨?_, ?_, ?_, ?_, ?_⟩
  · simp [toolCallsStep]
  · simp [toolCallsStep]
    omega
  · exact ⟨assistantToolMsg choice.message.content tcs :: tcs.map toolResultMsg,
      by simp [toolCallsStep]⟩
  · simp [toolCallsStep]
  · exact moonshotLoop_step_toolCalls chat fuel i msgs a b q data choice tcs hf hc hr ht

/-- Witness for C7: one tool invocation against an empty running transcript. -/
theorem c7_witness :
    toolCallsStep [] none [sampleToolCall] =
        [] ++ assistantToolMsg none [sampleToolCall] :: [sampleToolCall].map toolResultMsg ∧
    (toolCallsStep [] none [sampleToolCall]).length = 0 + 1 + 1 ∧
    ([] : List OpenAIRequestMessage) <+: toolCallsStep [] none [sampleToolCall] ∧
    0 < (toolCallsStep [] none [sampleToolCall]).length ∧
    moonshotLoop c1Chat 5 0 [] 0 0 [] =
      moonshotLoop c1Chat 4 1 (toolCallsStep [] none [sampleToolCall]) 10 5
        ["query one"] :=
  c7_toolcalls_transcript_growth c1Chat 4 0 [] 0 0 []
    { choices := [{ finish_reason := "tool_calls",
                    message := { content := none, tool_calls := some [sampleToolCall] } }],
      usage := some { prompt_tokens := some 10, completion_tokens := some 5 } }
    { finish_reason := "tool_calls",
      message := { content := none, tool_calls := some [sampleToolCall] } }
    [sampleToolCall] rfl rfl rfl rfl

/-- `find?` with the message predicate skips a prefix of non-message items. -/
theorem find?_isMessage_skips (pre rest : List ResponsesOutput)
    (hm : ∀ x ∈ pre, x.isMessage = false) :
    (pre ++ rest).find? ResponsesOutput.isMessage =
      rest.find? ResponsesOutput.isMessage := by
  induction pre with
  | nil => simp
  | cons x xs ih =>
      have hx : x.isMessage = false := hm x (by simp)
      simp only [List.cons_append, List.find?, hx]
      exact ih (fun y hy => hm y (by simp [hy]))

/-- `find?` with the message predicate finds nothing in a message-free list. -/
theorem find?_isMessage_none (out : List ResponsesOutput)
    (hm : ∀ x ∈ out, x.isMessage = false) :
    out.find? ResponsesOutput.isMessage = none := by
  induction out with
  | nil => rfl
  | cons x xs ih =>
      have hx : x.isMessage = false := hm x (by simp)
      simp only [List.find?, hx]
      exact ih (fun y hy => hm y (by simp [hy]))

/-- C8: for a successful Responses-dialect exchange, the canonical text is taken
from the first output item whose type is "message" — non-message items before it
(web-search-call markers) are skipped and never concatenated, items after the
first message item are ignored — and the text is the empty string when no message
item exists. -/
theorem c8_first_message_output_text (provider apiKey model systemPrompt : String)
    (messages : List ConversationMessage) (u : Option ChatUsage) (url : String)
    (hurl : RESPONSES_API_ENDPOINTS provider = some url) :
    (∀ (pre post : List ResponsesOutput) (c : List ResponsesOutputText),
        (∀ x ∈ pre, x.isMessage = false) →
        ∃ r, (callResponsesAPIWithSearch
              (ResponsesHttp.success
                { output := pre ++ ResponsesOutput.message c :: post, usage := u })
              provider apiKey model systemPrompt messages).1 = Except.ok r ∧
          r.text = ((c.head?.map ResponsesOutputText.text).getD "")) ∧
    (∀ out : List ResponsesOutput,
        (∀ x ∈ out, x.isMessage = false) →
        ∃ r, (callResponsesAPIWithSearch
              (ResponsesHttp.success { output := out, usage := u })
              provider apiKey model systemPrompt messages).1 = Except.ok r ∧
          r.text = "") := by
  have hcall : ∀ data : ResponsesAPIResponse,
      callResponsesAPIWithSearch (ResponsesHttp.success data)
          provider apiKey model systemPrompt messages =
        (Except.ok
          { text := ((((data.output.find? ResponsesOutput.isMessage).bind
                ResponsesOutput.messageContent?).bind List.head?).map
                ResponsesOutputText.text).getD ""
            inputTokens := data.usage.bind ChatUsage.prompt_tokens
            outputTokens := data.usage.bind ChatUsage.completion_tokens
            webSearchQueries :=
              if (data.output.filter ResponsesOutput.isWebSearchCall).length > 0 then
                some ["web_search (" ++
                  toString (data.output.filter ResponsesOutput.isWebSearchCall).length ++
                  " call(s))"]
              else none }, 1) := by
    intro data
    simp [callResponsesAPIWithSearch, hurl]
  constructor
  · intro pre post c hm
    have hfind : (pre ++ ResponsesOutput.message c :: post).find?
        ResponsesOutput.isMessage = some (ResponsesOutput.message c) := by
      rw [find?_isMessage_skips pre _ hm]
      simp [List.find?, ResponsesOutput.isMessage]
    refine ⟨_, by rw [hcall], ?_⟩
    simp [hfind, ResponsesOutput.messageContent?]
  · intro out hm
    have hfind : out.find? ResponsesOutput.isMessage = none :=
      find?_isMessage_none out hm
    refine ⟨_, by rw [hcall], ?_⟩
    simp [hfind]

/-- Witness for C8: a web-search-call marker, then a message "hello", then a later
message that must be ignored. -/
theorem c8_witness :
    ∃ r, (callResponsesAPIWithSearch
          (ResponsesHttp.success
            { output := [ResponsesOutput.web_search_call] ++
                ResponsesOutput.message [{ text := "hello" }] ::
                  [ResponsesOutput.message [{ text := "later" }]],
              usage := none })
          "openai" "key" "model" "sys" []).1 = Except.ok r ∧
      r.text = ((([{ text := "hello" }] : List ResponsesOutputText).head?.map
          ResponsesOutputText.text).getD "") :=
  (c8_first_message_output_text "openai" "key" "model" "sys" [] none
      "https://api.openai.com/v1/responses" rfl).1
    [ResponsesOutput.web_search_call]
    [ResponsesOutput.message [{ text := "later" }]]
    [{ text := "hello" }]
    (by decide)

end NerdbotAI
